import Mathlib

/-!
Verification of the symbiote learning app core services, shallowly embedded
from the Python sources.

Modelling conventions:
* Python `int` is `ℤ` (arbitrary precision); counters that start at 0 and only
  grow are `ℕ`.
* Python `float` arithmetic on the decimal constants of the points service
  (1.5, 2.0, 1.3, 2.5, 3.0, 0.7, 0.1) is modelled as exact rational
  arithmetic over `ℚ`; `int(x)` (truncation toward zero) is `pyTrunc`.
* A Python `dict` is an insertion-ordered association list; `d[k] = v` is
  `alistSet`, `del d[k]` is `alistErase`, `d.get(k)` is `List.lookup`.
* `datetime` timestamps and free-form metadata dictionaries carried in ledger
  and history records are not modelled; no claim mentions them.
* `random.choice` and `random.random` are modelled by an explicit index
  parameter threaded through the call (nondeterminism as a parameter).
-/

/-- Python `int(q)` on a real value: truncation toward zero
(`int(-1.5) = -1`, `int(1.5) = 1`). -/
def pyTrunc (q : ℚ) : ℤ :=
  if q < 0 then ⌈q⌉ else ⌊q⌋

/-- Set a key in an insertion-ordered association list, replacing the value in
place when the key is present and appending otherwise: Python `d[k] = v`. -/
def alistSet {κ α : Type} [DecidableEq κ] : List (κ × α) → κ → α → List (κ × α)
  | [], k, v => [(k, v)]
  | p :: t, k, v => if p.1 = k then (k, v) :: t else p :: alistSet t k v

/-- Remove a key from an association list: Python `del d[k]`
(callers check presence first). -/
def alistErase {κ α : Type} [DecidableEq κ] (l : List (κ × α)) (k : κ) : List (κ × α) :=
  l.filter (fun p => !(p.1 = k))

/-! ## Points service (src/services/points_service.py) -/

/-- One entry of `PointsService.points_history` (timestamps and metadata
omitted): either an award record or a penalty record. -/
inductive LedgerEntry where
  | award (action_type : String) (base_points : ℤ) (multiplier : ℚ) (points_earned : ℤ)
  | penalty (reason : String) (points_deducted : ℤ)
deriving DecidableEq, Repr

/-- The multiplier table from `PointsService.__init__` together with the
`self.multipliers.get(action_type, 1.0)` default lookup from `award_points`. -/
def multipliers (action_type : String) : ℚ :=
  if action_type = "curiosity" then 1.5
  else if action_type = "critical_thinking" then 2.0
  else if action_type = "collaboration" then 1.3
  else if action_type = "teaching" then 2.5
  else if action_type = "challenge_completion" then 3.0
  else if action_type = "hint_penalty" then 0.7
  else 1.0

/-- State of `PointsService`. -/
structure PointsService where
  current_points : ℤ
  total_points : ℤ
  points_history : List LedgerEntry
deriving DecidableEq, Repr

/-- `PointsService.__init__`. -/
def PointsService.init : PointsService :=
  { current_points := 0, total_points := 0, points_history := [] }

/-- `PointsService.award_points` (metadata argument omitted): returns the new
state and the points actually awarded. -/
def PointsService.award_points (s : PointsService) (action_type : String)
    (base_points : ℤ) : PointsService × ℤ :=
  let multiplier := multipliers action_type
  let points_earned := pyTrunc ((base_points : ℚ) * multiplier)
  ({ current_points := s.current_points + points_earned,
     total_points := s.total_points + points_earned,
     points_history := s.points_history
       ++ [LedgerEntry.award action_type base_points multiplier points_earned] },
   points_earned)

/-- `PointsService.penalize_points`: returns the new state and the points
actually deducted. -/
def PointsService.penalize_points (s : PointsService) (reason : String)
    (points_to_deduct : ℤ) : PointsService × ℤ :=
  let deducted := min points_to_deduct s.current_points
  ({ s with current_points := s.current_points - deducted,
            points_history := s.points_history ++ [LedgerEntry.penalty reason deducted] },
   deducted)

/-- `PointsService.use_hint`: a 10 percent penalty, at least 1, applied through
`penalize_points`; returns the new state and the computed penalty. -/
def PointsService.use_hint (s : PointsService) : PointsService × ℤ :=
  let penalty := max 1 (pyTrunc ((s.current_points : ℚ) * 0.1))
  ((s.penalize_points "hint_used" penalty).1, penalty)

/-- `PointsService.get_current_level`. Python `//` is floor division; the
divisor 100 is positive, so `ℤ` division (`Int.ediv`) agrees with it. -/
def PointsService.get_current_level (s : PointsService) : ℤ :=
  s.total_points / 100 + 1

/-- `PointsService.get_next_level_threshold`. -/
def PointsService.get_next_level_threshold (s : PointsService) : ℤ :=
  s.get_current_level * 100

/-- `PointsService.get_progress_percentage`. -/
def PointsService.get_progress_percentage (s : PointsService) : ℚ :=
  let current_level := s.get_current_level
  let current_threshold := (current_level - 1) * 100
  let next_threshold := current_level * 100
  if next_threshold = current_threshold then 0
  else
    min 100 (max 0 (((s.total_points : ℚ) - (current_threshold : ℚ))
      / ((next_threshold : ℚ) - (current_threshold : ℚ)) * 100))

/-- `PointsService.reset`. -/
def PointsService.reset (_ : PointsService) : PointsService :=
  PointsService.init

/-- One call into the points service, for stating state-machine invariants. -/
inductive PointsOp where
  | award (action_type : String) (base_points : ℤ)
  | penalize (reason : String) (points_to_deduct : ℤ)
  | useHint
  | reset
deriving DecidableEq, Repr

/-- Apply one `PointsOp` to a `PointsService` state, dropping the returned value. -/
def PointsService.apply (s : PointsService) : PointsOp → PointsService
  | PointsOp.award a b => (s.award_points a b).1
  | PointsOp.penalize r p => (s.penalize_points r p).1
  | PointsOp.useHint => s.use_hint.1
  | PointsOp.reset => s.reset

/-! ## Helper lemmas -/

theorem multipliers_nonneg (action_type : String) : 0 ≤ multipliers action_type := by
  unfold multipliers
  repeat' split
  all_goals norm_num

theorem pyTrunc_eq_floor {q : ℚ} (h : 0 ≤ q) : pyTrunc q = ⌊q⌋ := by
  unfold pyTrunc
  rw [if_neg (not_lt.mpr h)]

theorem max_one_pyTrunc (q : ℚ) : max 1 (pyTrunc q) = max 1 ⌊q⌋ := by
  unfold pyTrunc
  by_cases h : q < 0
  · rw [if_pos h]
    have hc : ⌈q⌉ ≤ 0 := Int.ceil_le.mpr (by exact_mod_cast h.le)
    have hf : ⌊q⌋ ≤ 0 := Int.floor_le_ceil q |>.trans hc
    rw [max_eq_left (by omega), max_eq_left (by omega)]
  · rw [if_neg h]

theorem int_div_100_eq_floor (t : ℤ) : t / 100 = ⌊(t : ℚ) / 100⌋ := by
  have h := Rat.floor_intCast_div_natCast t 100
  norm_num at h
  exact h.symm

/-! ## Claim C1 -/

/-- Formal statement of claim C1 at one call site. -/
def AwardClaim (s : PointsService) (action_type : String) (base_points : ℤ) : Prop :=
  (s.award_points action_type base_points).2
      = ⌊(base_points : ℚ) * multipliers action_type⌋
  ∧ (s.award_points action_type base_points).1.current_points
      = s.current_points + (s.award_points action_type base_points).2
  ∧ (s.award_points action_type base_points).1.total_points
      = s.total_points + (s.award_points action_type base_points).2
  ∧ (s.award_points action_type base_points).1.points_history
      = s.points_history ++ [LedgerEntry.award action_type base_points
          (multipliers action_type) ((s.award_points action_type base_points).2)]
  ∧ multipliers "curiosity" = 1.5
  ∧ multipliers "critical_thinking" = 2.0
  ∧ multipliers "collaboration" = 1.3
  ∧ multipliers "teaching" = 2.5
  ∧ multipliers "challenge_completion" = 3.0
  ∧ multipliers "hint_penalty" = 0.7
  ∧ (action_type ∉ ["curiosity", "critical_thinking", "collaboration",
        "teaching", "challenge_completion", "hint_penalty"] →
      multipliers action_type = 1.0)

/-- C1: for every `award_points(action_type, base_points)` call with
`base_points ≥ 0`, the returned `points_earned` is
`floor(base_points * multiplier(action_type))` with the multiplier looked up in
the fixed table (default 1.0 for unknown actions); `current_points` and
`total_points` each grow by exactly `points_earned`, and one ledger entry is
appended. -/
theorem award_points_spec (s : PointsService) (action_type : String) (base_points : ℤ)
    (hbase : 0 ≤ base_points) : AwardClaim s action_type base_points := by
  refine ⟨?_, rfl, rfl, rfl, rfl, rfl, rfl, rfl, rfl, rfl, ?_⟩
  · exact pyTrunc_eq_floor
      (mul_nonneg (by exact_mod_cast hbase) (multipliers_nonneg action_type))
  · intro h
    simp only [List.mem_cons, List.not_mem_nil, or_false, not_or] at h
    obtain ⟨h1, h2, h3, h4, h5, h6⟩ := h
    simp [multipliers, h1, h2, h3, h4, h5, h6]

theorem award_points_spec_witness :
    (0 : ℤ) ≤ 10 ∧ AwardClaim PointsService.init "curiosity" 10 :=
  ⟨by decide, award_points_spec PointsService.init "curiosity" 10 (by decide)⟩

/-! ## Claim C2 -/

/-- Formal statement of claim C2 at one call site. -/
def PenalizeClaim (s : PointsService) (reason : String) (amount : ℤ) : Prop :=
  (s.penalize_points reason amount).2 = min amount s.current_points
  ∧ (s.penalize_points reason amount).1.current_points
      = s.current_points - (s.penalize_points reason amount).2
  ∧ 0 ≤ (s.penalize_points reason amount).1.current_points
  ∧ (s.penalize_points reason amount).1.total_points = s.total_points

/-- C2: for every `penalize_points(reason, amount)` call with `amount ≥ 0`,
the deducted amount is `min(amount, current_points_before)`, the new
`current_points` is the old value minus the deduction and stays nonnegative,
and `total_points` is unchanged. -/
theorem penalize_points_spec (s : PointsService) (reason : String) (amount : ℤ)
    (hamount : 0 ≤ amount) : PenalizeClaim s reason amount := by
  refine ⟨rfl, rfl, ?_, rfl⟩
  exact sub_nonneg.mpr (min_le_right amount s.current_points)

theorem penalize_points_spec_witness :
    (0 : ℤ) ≤ 3 ∧ PenalizeClaim (PointsService.mk 7 12 []) "late" 3 :=
  ⟨by decide, penalize_points_spec (PointsService.mk 7 12 []) "late" 3 (by decide)⟩

/-! ## Claim C3 -/

/-- Formal statement of claim C3: the penalty formula, the delegation to
`penalize_points` with reason `"hint_used"`, and the returned value. -/
def UseHintClaim (s : PointsService) : Prop :=
  s.use_hint.2 = max 1 ⌊(s.current_points : ℚ) * 0.1⌋
  ∧ s.use_hint.1 = (s.penalize_points "hint_used" s.use_hint.2).1

/-- The concrete part of claim C3: from `current_points = 6`, `use_hint()`
returns 1 and leaves `current_points = 5`. -/
def UseHintAtSix : Prop :=
  ∀ (total : ℤ) (hist : List LedgerEntry),
    ((PointsService.mk 6 total hist).use_hint).2 = 1
    ∧ ((PointsService.mk 6 total hist).use_hint).1.current_points = 5

/-- C3: every `use_hint()` call computes the penalty
`max(1, floor(current_points * 0.1))`, applies it via `penalize_points` with
reason `"hint_used"`, and returns it; with `current_points = 6` the return is 1
and the balance drops to 5. -/
theorem use_hint_spec : (∀ s : PointsService, UseHintClaim s) ∧ UseHintAtSix := by
  constructor
  · intro s
    exact ⟨max_one_pyTrunc _, rfl⟩
  · intro total hist
    have hpen : max 1 (pyTrunc (((6 : ℤ) : ℚ) * 0.1)) = 1 := by
      rw [show (((6 : ℤ) : ℚ) * 0.1) = 3 / 5 by norm_num]
      rw [pyTrunc_eq_floor (by norm_num)]
      norm_num
    constructor
    · exact hpen
    · show (6 : ℤ) - min ((PointsService.mk 6 total hist).use_hint).2 6 = 5
      rw [show ((PointsService.mk 6 total hist).use_hint).2
            = max 1 (pyTrunc (((6 : ℤ) : ℚ) * 0.1)) from rfl, hpen]
      decide

/-! ## Claim C4 -/

/-- Formal statement of claim C4 for one state. -/
def LevelClaim (s : PointsService) : Prop :=
  s.get_current_level = ⌊(s.total_points : ℚ) / 100⌋ + 1
  ∧ s.get_next_level_threshold = s.get_current_level * 100
  ∧ 0 ≤ s.get_progress_percentage
  ∧ s.get_progress_percentage ≤ 100

/-- C4: for every state with `total_points ≥ 0`, `get_current_level()` is
`floor(total_points / 100) + 1`, `get_next_level_threshold()` is
`level * 100`, and `get_progress_percentage()` lies in [0, 100]. -/
theorem level_progress_spec (s : PointsService) (htotal : 0 ≤ s.total_points) :
    LevelClaim s := by
  refine ⟨?_, rfl, ?_, ?_⟩
  · show s.total_points / 100 + 1 = ⌊(s.total_points : ℚ) / 100⌋ + 1
    rw [int_div_100_eq_floor]
  · unfold PointsService.get_progress_percentage
    dsimp only
    split
    · norm_num
    · exact le_min (by norm_num) (le_max_left 0 _)
  · unfold PointsService.get_progress_percentage
    dsimp only
    split
    · norm_num
    · exact min_le_left 100 _

theorem level_progress_spec_witness :
    (0 : ℤ) ≤ (PointsService.mk 0 250 []).total_points
    ∧ LevelClaim (PointsService.mk 0 250 []) :=
  ⟨by decide, level_progress_spec (PointsService.mk 0 250 []) (by decide)⟩

/-! ## Claim C7 -/

/-- The restriction the counterexample forces on C7: award calls must carry a
nonnegative base. -/
def PointsOp.awardNonneg : PointsOp → Prop
  | PointsOp.award _ base_points => 0 ≤ base_points
  | _ => True

/-- Claim C7 fails as stated: `award_points` with a negative base drives
`current_points` below zero and decreases `total_points`, and `reset()` also
decreases `total_points`. -/
theorem points_invariant_counterexample :
    (PointsService.init.apply (PointsOp.award "curiosity" (-1))).current_points < 0
    ∧ (PointsService.init.apply (PointsOp.award "curiosity" (-1))).total_points
        < PointsService.init.total_points
    ∧ ((PointsService.init.apply (PointsOp.award "collaboration" 10)).apply
          PointsOp.reset).total_points
        < (PointsService.init.apply (PointsOp.award "collaboration" 10)).total_points := by
  have hm1 : multipliers "curiosity" = 1.5 := rfl
  have hm2 : multipliers "collaboration" = 1.3 := rfl
  have hneg : pyTrunc (((-1 : ℤ) : ℚ) * multipliers "curiosity") = -1 := by
    rw [show (((-1 : ℤ) : ℚ) * multipliers "curiosity") = -(3 / 2) by
      rw [hm1]; norm_num]
    unfold pyTrunc
    rw [if_pos (by norm_num), Int.ceil_neg]
    norm_num
  have hpos : pyTrunc (((10 : ℤ) : ℚ) * multipliers "collaboration") = 13 := by
    rw [show (((10 : ℤ) : ℚ) * multipliers "collaboration") = 13 by
      rw [hm2]; norm_num]
    rw [pyTrunc_eq_floor (by norm_num)]
    norm_num
  refine ⟨?_, ?_, ?_⟩
  · show (0 : ℤ) + pyTrunc (((-1 : ℤ) : ℚ) * multipliers "curiosity") < 0
    rw [hneg]; decide
  · show (0 : ℤ) + pyTrunc (((-1 : ℤ) : ℚ) * multipliers "curiosity") < 0
    rw [hneg]; decide
  · show (0 : ℤ) < 0 + pyTrunc (((10 : ℤ) : ℚ) * multipliers "collaboration")
    rw [hpos]; decide

/-- The amended claim C7 for one step. -/
def PointsInvariantClaim (s : PointsService) (op : PointsOp) : Prop :=
  0 ≤ (s.apply op).current_points
  ∧ (op ≠ PointsOp.reset → s.total_points ≤ (s.apply op).total_points)
  ∧ (s.apply PointsOp.reset).total_points = 0

/-- C7 (amended): from any state with `current_points ≥ 0`, each operation
among `award_points` (restricted to `base_points ≥ 0`), `penalize_points`,
`use_hint` and `reset` preserves `current_points ≥ 0`; every operation except
`reset` leaves `total_points` no smaller, while `reset` sets it to 0. -/
theorem points_invariant_amended (s : PointsService) (op : PointsOp)
    (hcur : 0 ≤ s.current_points) (hop : op.awardNonneg) :
    PointsInvariantClaim s op := by
  refine ⟨?_, ?_, rfl⟩
  · cases op with
    | award a b =>
        have hearned : 0 ≤ pyTrunc ((b : ℚ) * multipliers a) := by
          rw [pyTrunc_eq_floor (mul_nonneg (by exact_mod_cast hop) (multipliers_nonneg a))]
          exact Int.floor_nonneg.mpr (mul_nonneg (by exact_mod_cast hop) (multipliers_nonneg a))
        show 0 ≤ s.current_points + pyTrunc ((b : ℚ) * multipliers a)
        omega
    | penalize r p =>
        show 0 ≤ s.current_points - min p s.current_points
        exact sub_nonneg.mpr (min_le_right p s.current_points)
    | useHint =>
        show 0 ≤ s.current_points - min (s.use_hint.2) s.current_points
        exact sub_nonneg.mpr (min_le_right _ s.current_points)
    | reset => exact le_refl 0
  · intro hne
    cases op with
    | award a b =>
        have hearned : 0 ≤ pyTrunc ((b : ℚ) * multipliers a) := by
          rw [pyTrunc_eq_floor (mul_nonneg (by exact_mod_cast hop) (multipliers_nonneg a))]
          exact Int.floor_nonneg.mpr (mul_nonneg (by exact_mod_cast hop) (multipliers_nonneg a))
        show s.total_points ≤ s.total_points + pyTrunc ((b : ℚ) * multipliers a)
        omega
    | penalize r p => exact le_refl _
    | useHint => exact le_refl _
    | reset => exact absurd rfl hne

theorem points_invariant_amended_witness :
    (0 : ℤ) ≤ (PointsService.mk 3 7 []).current_points
    ∧ (PointsOp.award "teaching" 4).awardNonneg
    ∧ PointsInvariantClaim (PointsService.mk 3 7 []) (PointsOp.award "teaching" 4) :=
  ⟨by decide, by exact (by decide : (0 : ℤ) ≤ 4),
    points_invariant_amended (PointsService.mk 3 7 []) (PointsOp.award "teaching" 4)
      (by decide) (by exact (by decide : (0 : ℤ) ≤ 4))⟩

/-! ## History service (src/services/history_service.py) -/

/-- Per-topic aggregate stored in `HistoryService.topic_performance`. -/
structure TopicPerformance where
  total_interactions : ℕ
  correct_responses : ℕ
  total_points : ℤ
  accuracy : ℚ
deriving DecidableEq, Repr

/-- One record of `HistoryService.interaction_history` (timestamp omitted);
`correct` is the optional boolean of the Python signature (`None` = unknown). -/
structure Interaction where
  agent_type : String
  topic : String
  user_response : String
  agent_response : String
  points_earned : ℤ
  correct : Option Bool
deriving DecidableEq, Repr

/-- State of `HistoryService`. -/
structure HistoryService where
  interaction_history : List Interaction
  topic_performance : List (String × TopicPerformance)
  weak_areas : List String
  strong_areas : List String
deriving DecidableEq, Repr

/-- `HistoryService.__init__`. -/
def HistoryService.init : HistoryService :=
  { interaction_history := [], topic_performance := [], weak_areas := [], strong_areas := [] }

/-- `HistoryService._update_topic_performance`; Python `if correct:` counts
only an explicit `True`. -/
def HistoryService.update_topic_performance (h : HistoryService) (topic : String)
    (correct : Option Bool) (points_earned : ℤ) : HistoryService :=
  let perf := (h.topic_performance.lookup topic).getD
    { total_interactions := 0, correct_responses := 0, total_points := 0, accuracy := 0 }
  let total := perf.total_interactions + 1
  let correct_count := perf.correct_responses + (if correct = some true then 1 else 0)
  let accuracy : ℚ := if 0 < total then (correct_count : ℚ) / (total : ℚ) * 100 else 0
  let newPerf : TopicPerformance :=
    { total_interactions := total, correct_responses := correct_count,
      total_points := perf.total_points + points_earned, accuracy := accuracy }
  { h with topic_performance := alistSet h.topic_performance topic newPerf }

/-- `HistoryService.add_interaction`. -/
def HistoryService.add_interaction (h : HistoryService) (agent_type topic
    user_response agent_response : String) (points_earned : ℤ)
    (correct : Option Bool) : HistoryService :=
  let interaction : Interaction :=
    { agent_type := agent_type, topic := topic, user_response := user_response,
      agent_response := agent_response, points_earned := points_earned, correct := correct }
  ({ h with interaction_history := h.interaction_history ++ [interaction]
   } : HistoryService).update_topic_performance topic correct points_earned

/-- `HistoryService.identify_weak_areas` (default threshold 50.0): returns the
new state (with the cached list overwritten) and the returned list. -/
def HistoryService.identify_weak_areas (h : HistoryService) (threshold : ℚ) :
    HistoryService × List String :=
  let weak := (h.topic_performance.filter
    (fun p => decide (p.2.accuracy < threshold) && decide (3 ≤ p.2.total_interactions))).map
    Prod.fst
  ({ h with weak_areas := weak }, weak)

/-! ## Claim C5 -/

/-- Formal statement of claim C5 for one state, one threshold and one topic. -/
def WeakAreasClaim (h : HistoryService) (threshold : ℚ) (topic : String) : Prop :=
  ((h.identify_weak_areas threshold).1).weak_areas = (h.identify_weak_areas threshold).2
  ∧ (topic ∈ (h.identify_weak_areas threshold).2 ↔
      ∃ perf : TopicPerformance, (topic, perf) ∈ h.topic_performance
        ∧ perf.accuracy < threshold ∧ 3 ≤ perf.total_interactions)

/-- C5: `identify_weak_areas(threshold)` returns exactly the topics whose
recorded accuracy is strictly below the threshold and whose
`total_interactions` is at least 3 (so never a topic with fewer than 3
interactions), and overwrites the cached weak list with that result. -/
theorem identify_weak_areas_spec (h : HistoryService) (threshold : ℚ) (topic : String) :
    WeakAreasClaim h threshold topic := by
  constructor
  · rfl
  · unfold HistoryService.identify_weak_areas
    dsimp only
    rw [List.mem_map]
    constructor
    · rintro ⟨p, hp, hfst⟩
      rw [List.mem_filter] at hp
      refine ⟨p.2, ?_, ?_, ?_⟩
      · rw [show (topic, p.2) = p by rw [← hfst]]
        exact hp.1
      · have := hp.2
        simp only [Bool.and_eq_true, decide_eq_true_eq] at this
        exact this.1
      · have := hp.2
        simp only [Bool.and_eq_true, decide_eq_true_eq] at this
        exact this.2
    · rintro ⟨perf, hmem, hacc, hcount⟩
      refine ⟨(topic, perf), ?_, rfl⟩
      rw [List.mem_filter]
      exact ⟨hmem, by simp only [Bool.and_eq_true, decide_eq_true_eq]; exact ⟨hacc, hcount⟩⟩

/-! ## Agent types and keyword routing (src/core/base_agent.py,
src/services/orchestrator_service.py) -/

/-- The `AgentType` enumeration. -/
inductive AgentType where
  | tutor
  | peer
  | provocateur
  | teachable
deriving DecidableEq, Repr

/-- `AgentType.value`, the string value of each enumerator. -/
def AgentType.value : AgentType → String
  | AgentType.tutor => "tutor"
  | AgentType.peer => "peer"
  | AgentType.provocateur => "provocateur"
  | AgentType.teachable => "teachable"

/-- ASCII lowering of one character, the effect of Python `str.lower()` on the
ASCII inputs this routing logic compares against. -/
def charLower (c : Char) : Char :=
  if 65 ≤ c.toNat ∧ c.toNat ≤ 90 then Char.ofNat (c.toNat + 32) else c

/-- `user_input.lower()` as a character list. -/
def lowerData (s : String) : List Char :=
  s.data.map charLower

/-- Does the character list start with the given needle. -/
def startsWithList : List Char → List Char → Bool
  | _, [] => true
  | [], _ :: _ => false
  | c :: cs, n :: ns => c = n && startsWithList cs ns

/-- Substring containment on character lists. -/
def containsList : List Char → List Char → Bool
  | [], needle => needle.isEmpty
  | c :: cs, needle => startsWithList (c :: cs) needle || containsList cs needle

/-- Python `word in text` (substring test) for a keyword against a lowered
input. -/
def pyIn (word : String) (lowered : List Char) : Bool :=
  containsList lowered word.data

/-- `OrchestratorService._decide_next_agent`. The method reads only
`self.conversation_count`, passed here explicitly. -/
def decide_next_agent (conversation_count : ℕ) (user_input : String) : AgentType :=
  let user_input_lower := lowerData user_input
  if pyIn "why" user_input_lower || pyIn "how" user_input_lower
      || pyIn "explain" user_input_lower then
    AgentType.tutor
  else if pyIn "challenge" user_input_lower || pyIn "game" user_input_lower
      || pyIn "scenario" user_input_lower then
    AgentType.provocateur
  else if pyIn "teach" user_input_lower || pyIn "explain to" user_input_lower
      || pyIn "help me" user_input_lower then
    AgentType.teachable
  else if conversation_count % 4 = 0 then
    AgentType.peer
  else if conversation_count % 4 = 1 then
    AgentType.provocateur
  else if conversation_count % 4 = 2 then
    AgentType.teachable
  else
    AgentType.tutor

/-- The input contains none of the nine trigger keywords. -/
def KeywordFreeInput (input : String) : Prop :=
  (pyIn "why" (lowerData input) || pyIn "how" (lowerData input)
    || pyIn "explain" (lowerData input)) = false
  ∧ (pyIn "challenge" (lowerData input) || pyIn "game" (lowerData input)
    || pyIn "scenario" (lowerData input)) = false
  ∧ (pyIn "teach" (lowerData input) || pyIn "explain to" (lowerData input)
    || pyIn "help me" (lowerData input)) = false

instance (input : String) : Decidable (KeywordFreeInput input) := by
  unfold KeywordFreeInput
  infer_instance

/-! ## Claim C6 -/

/-- Formal statement of claim C6 for one input and one counter value. -/
def RoutingClaim (input : String) (n : ℕ) : Prop :=
  ((pyIn "why" (lowerData input) || pyIn "how" (lowerData input)
      || pyIn "explain" (lowerData input)) = true →
    decide_next_agent n input = AgentType.tutor)
  ∧ ((pyIn "why" (lowerData input) || pyIn "how" (lowerData input)
      || pyIn "explain" (lowerData input)) = false →
     (pyIn "challenge" (lowerData input) || pyIn "game" (lowerData input)
      || pyIn "scenario" (lowerData input)) = true →
    decide_next_agent n input = AgentType.provocateur)
  ∧ ((pyIn "why" (lowerData input) || pyIn "how" (lowerData input)
      || pyIn "explain" (lowerData input)) = false →
     (pyIn "challenge" (lowerData input) || pyIn "game" (lowerData input)
      || pyIn "scenario" (lowerData input)) = false →
     (pyIn "teach" (lowerData input) || pyIn "explain to" (lowerData input)
      || pyIn "help me" (lowerData input)) = true →
    decide_next_agent n input = AgentType.teachable)
  ∧ (KeywordFreeInput input →
    decide_next_agent n input =
      (if n % 4 = 0 then AgentType.peer
       else if n % 4 = 1 then AgentType.provocateur
       else if n % 4 = 2 then AgentType.teachable
       else AgentType.tutor))
  ∧ (KeywordFreeInput input →
    ∀ a : AgentType,
      ([decide_next_agent n input, decide_next_agent (n + 1) input,
        decide_next_agent (n + 2) input, decide_next_agent (n + 3) input].count a) = 1)

theorem decide_next_agent_keywordFree (input : String) (n : ℕ)
    (hk : KeywordFreeInput input) :
    decide_next_agent n input =
      (if n % 4 = 0 then AgentType.peer
       else if n % 4 = 1 then AgentType.provocateur
       else if n % 4 = 2 then AgentType.teachable
       else AgentType.tutor) := by
  obtain ⟨h1, h2, h3⟩ := hk
  unfold decide_next_agent
  simp only [h1, h2, h3, Bool.false_eq_true, if_false]

/-- C6: the selection policy of `_decide_next_agent` follows the keyword
precedence tutor-triggers, then provocateur-triggers, then teachable-triggers,
and otherwise the `conversation_count mod 4` round robin
(0 peer, 1 provocateur, 2 teachable, 3 tutor); four consecutive keyword-free
turns therefore visit each agent type exactly once, in that fixed order. -/
theorem decide_next_agent_spec (input : String) (n : ℕ) : RoutingClaim input n := by
  refine ⟨?_, ?_, ?_, decide_next_agent_keywordFree input n, ?_⟩
  · intro h1
    unfold decide_next_agent
    simp only [h1, if_true]
  · intro h1 h2
    unfold decide_next_agent
    simp only [h1, h2, Bool.false_eq_true, if_false, if_true]
  · intro h1 h2 h3
    unfold decide_next_agent
    simp only [h1, h2, h3, Bool.false_eq_true, if_false, if_true]
  · intro hk a
    rw [decide_next_agent_keywordFree input n hk,
        decide_next_agent_keywordFree input (n + 1) hk,
        decide_next_agent_keywordFree input (n + 2) hk,
        decide_next_agent_keywordFree input (n + 3) hk]
    have h4 : n % 4 = 0 ∨ n % 4 = 1 ∨ n % 4 = 2 ∨ n % 4 = 3 := by omega
    rcases h4 with h | h | h | h
    all_goals {
      have e0 : n % 4 = n % 4 := rfl
      have e1 : (n + 1) % 4 = (n % 4 + 1) % 4 := by omega
      have e2 : (n + 2) % 4 = (n % 4 + 2) % 4 := by omega
      have e3 : (n + 3) % 4 = (n % 4 + 3) % 4 := by omega
      rw [e1, e2, e3, h]
      cases a <;> rfl
    }

theorem decide_next_agent_spec_witness :
    KeywordFreeInput "I am stuck on Algebra."
    ∧ decide_next_agent 0 "I am stuck on Algebra." = AgentType.peer
    ∧ decide_next_agent 1 "I am stuck on Algebra." = AgentType.provocateur
    ∧ decide_next_agent 2 "I am stuck on Algebra." = AgentType.teachable
    ∧ decide_next_agent 3 "I am stuck on Algebra." = AgentType.tutor
    ∧ decide_next_agent 7 "Why does this work?" = AgentType.tutor := by
  have hk : KeywordFreeInput "I am stuck on Algebra." := by decide
  refine ⟨hk, ?_, ?_, ?_, ?_, ?_⟩
  · simpa using (decide_next_agent_spec "I am stuck on Algebra." 0).2.2.2.1 hk
  · simpa using (decide_next_agent_spec "I am stuck on Algebra." 1).2.2.2.1 hk
  · simpa using (decide_next_agent_spec "I am stuck on Algebra." 2).2.2.2.1 hk
  · simpa using (decide_next_agent_spec "I am stuck on Algebra." 3).2.2.2.1 hk
  · exact (decide_next_agent_spec "Why does this work?" 7).1 (by decide)

/-! ## Agents and the registry (src/agents/base_implementations.py,
src/agents/registry.py) -/

/-- The mutable state of one agent object: its type tag plus the per-variant
counters of the four implementations (`questions_asked` for the tutor,
`challenges_created` for the provocateur, `understanding_level` for the
teachable agent; conversation histories are not modelled, no claim reads
them). -/
structure Agent where
  agent_type : AgentType
  questions_asked : ℕ := 0
  challenges_created : ℕ := 0
  understanding_level : ℕ := 0
deriving DecidableEq, Repr

/-- A registered agent class, invoked as `agent_class(agent_type)`
(named `agent_cls` below because of naming constraints of this development). -/
def AgentCtor := AgentType → Agent

/-- A zero-argument factory, `self._agent_factories[agent_type]`. -/
def AgentFactory := Unit → Agent

/-- State of `AgentRegistry`. -/
structure AgentRegistry where
  agent_classes : List (AgentType × AgentCtor)
  agent_factories : List (AgentType × AgentFactory)
  instances : List (String × Agent)

/-- `AgentRegistry.__init__`: all three maps empty. -/
def AgentRegistry.init : AgentRegistry :=
  { agent_classes := [], agent_factories := [], instances := [] }

/-- `AgentRegistry.register_agent`. -/
def AgentRegistry.register_agent (r : AgentRegistry) (agent_type : AgentType)
    (agent_cls : AgentCtor) (factory : Option AgentFactory) :
    Except String AgentRegistry :=
  if (r.agent_classes.lookup agent_type).isSome then
    Except.error ("Agent type '" ++ agent_type.value ++ "' is already registered")
  else
    Except.ok
      { r with
        agent_classes := alistSet r.agent_classes agent_type agent_cls,
        agent_factories := alistSet r.agent_factories agent_type
          (factory.getD (fun _ => agent_cls agent_type)) }

/-- `AgentRegistry.unregister_agent`: removes the class and factory entries and
every stored named instance whose `agent_type` matches. -/
def AgentRegistry.unregister_agent (r : AgentRegistry) (agent_type : AgentType) :
    Except String AgentRegistry :=
  if (r.agent_classes.lookup agent_type).isSome then
    Except.ok
      { agent_classes := alistErase r.agent_classes agent_type,
        agent_factories := alistErase r.agent_factories agent_type,
        instances := r.instances.filter (fun p => !(p.2.agent_type = agent_type)) }
  else
    Except.error ("Agent type '" ++ agent_type.value ++ "' is not registered")

/-- `AgentRegistry.create_agent`: runs the registered factory; when an
`instance_id` is supplied the created instance is stored under it. A missing
factory entry for a registered class (impossible through the public
operations) is a Python `KeyError`, modelled as an error value. -/
def AgentRegistry.create_agent (r : AgentRegistry) (agent_type : AgentType)
    (instance_id : Option String) : Except String (AgentRegistry × Agent) :=
  if (r.agent_classes.lookup agent_type).isSome then
    match r.agent_factories.lookup agent_type with
    | none => Except.error ("KeyError: " ++ agent_type.value)
    | some factory =>
      let agent := factory ()
      match instance_id with
      | some iid => Except.ok ({ r with instances := alistSet r.instances iid agent }, agent)
      | none => Except.ok (r, agent)
  else
    Except.error ("Agent type '" ++ agent_type.value ++ "' is not registered")

/-- `AgentRegistry.get_agent`. -/
def AgentRegistry.get_agent (r : AgentRegistry) (instance_id : String) : Option Agent :=
  r.instances.lookup instance_id

/-- `AgentRegistry.get_all_registered_types`. -/
def AgentRegistry.get_all_registered_types (r : AgentRegistry) : List AgentType :=
  r.agent_classes.map Prod.fst

theorem lookup_alistSet_self {κ α : Type} [DecidableEq κ] (l : List (κ × α)) (k : κ)
    (v : α) : (alistSet l k v).lookup k = some v := by
  induction l with
  | nil => simp [alistSet, List.lookup]
  | cons p t ih =>
    obtain ⟨pk, pv⟩ := p
    by_cases hp : pk = k
    · simp [alistSet, hp, List.lookup]
    · have hbeq : (k == pk) = false := by simp [Ne.symm hp]
      simp [alistSet, hp, List.lookup, hbeq, ih]

theorem lookup_alistErase_self {κ α : Type} [DecidableEq κ] (l : List (κ × α)) (k : κ) :
    (alistErase l k).lookup k = none := by
  induction l with
  | nil => simp [alistErase, List.lookup]
  | cons p t ih =>
    obtain ⟨pk, pv⟩ := p
    by_cases hp : pk = k
    · simpa [alistErase, hp] using ih
    · have hbeq : (k == pk) = false := by simp [Ne.symm hp]
      simpa [alistErase, hp, List.lookup, hbeq] using ih

/-! ## Claim C8 -/

/-- Formal statement of claim C8 for one registry state, agent type, class,
optional factory and instance id. -/
def RegistryClaim (r : AgentRegistry) (t : AgentType) (ctor : AgentCtor)
    (fac : Option AgentFactory) (iid : String) : Prop :=
  ((r.agent_classes.lookup t).isSome = true →
    r.register_agent t ctor fac
      = Except.error ("Agent type '" ++ t.value ++ "' is already registered"))
  ∧ (r.agent_classes.lookup t = none →
    ∃ r2 : AgentRegistry, r.register_agent t ctor fac = Except.ok r2
      ∧ r2.agent_classes.lookup t = some ctor
      ∧ (∀ f : AgentFactory, fac = some f → r2.agent_factories.lookup t = some f)
      ∧ (fac = none → ∃ g : AgentFactory,
          r2.agent_factories.lookup t = some g ∧ g () = ctor t))
  ∧ (r.agent_classes.lookup t = none →
    r.unregister_agent t
      = Except.error ("Agent type '" ++ t.value ++ "' is not registered"))
  ∧ ((r.agent_classes.lookup t).isSome = true →
    ∃ r2 : AgentRegistry, r.unregister_agent t = Except.ok r2
      ∧ r2.agent_classes.lookup t = none
      ∧ r2.instances = r.instances.filter (fun p => !(p.2.agent_type = t))
      ∧ ∀ p ∈ r2.instances, p.2.agent_type ≠ t)
  ∧ (r.agent_classes.lookup t = none →
    r.create_agent t (some iid)
      = Except.error ("Agent type '" ++ t.value ++ "' is not registered"))
  ∧ (∀ f : AgentFactory, (r.agent_classes.lookup t).isSome = true →
      r.agent_factories.lookup t = some f →
      r.create_agent t (some iid)
        = Except.ok ({ r with instances := alistSet r.instances iid (f ()) }, f ())
      ∧ ({ r with instances := alistSet r.instances iid (f ()) } : AgentRegistry).get_agent
          iid = some (f ()))

/-- C8: `register_agent` fails on a duplicate type and otherwise records the
class together with the supplied or default factory; `unregister_agent` fails
on an absent type and otherwise also drops every stored named instance of that
type; `create_agent` fails on an unregistered type, and when an `instance_id`
is supplied it stores the created instance for retrieval under that id. -/
theorem registry_spec (r : AgentRegistry) (t : AgentType) (ctor : AgentCtor)
    (fac : Option AgentFactory) (iid : String) : RegistryClaim r t ctor fac iid := by
  refine ⟨?_, ?_, ?_, ?_, ?_, ?_⟩
  · intro hsome
    unfold AgentRegistry.register_agent
    rw [if_pos hsome]
  · intro hnone
    unfold AgentRegistry.register_agent
    rw [if_neg (by rw [hnone]; simp)]
    refine ⟨_, rfl, lookup_alistSet_self _ _ _, ?_, ?_⟩
    · intro f hf
      rw [hf]
      exact lookup_alistSet_self _ _ _
    · intro hfac
      rw [hfac]
      exact ⟨_, lookup_alistSet_self _ _ _, rfl⟩
  · intro hnone
    unfold AgentRegistry.unregister_agent
    rw [if_neg (by rw [hnone]; simp)]
  · intro hsome
    unfold AgentRegistry.unregister_agent
    rw [if_pos hsome]
    refine ⟨_, rfl, lookup_alistErase_self _ _, rfl, ?_⟩
    intro p hp
    rw [List.mem_filter] at hp
    simpa using hp.2
  · intro hnone
    unfold AgentRegistry.create_agent
    rw [if_neg (by rw [hnone]; simp)]
  · intro f hsome hfac
    unfold AgentRegistry.create_agent
    rw [if_pos hsome, hfac]
    exact ⟨rfl, lookup_alistSet_self _ _ _⟩

theorem registry_spec_witness :
    (AgentRegistry.init.agent_classes.lookup AgentType.tutor = none)
    ∧ AgentRegistry.init.unregister_agent AgentType.tutor
        = Except.error "Agent type 'tutor' is not registered"
    ∧ AgentRegistry.init.create_agent AgentType.tutor (some "tutor-1")
        = Except.error "Agent type 'tutor' is not registered" :=
  ⟨rfl,
   (registry_spec AgentRegistry.init AgentType.tutor
      (fun ty => { agent_type := ty }) none "tutor-1").2.2.1 rfl,
   (registry_spec AgentRegistry.init AgentType.tutor
      (fun ty => { agent_type := ty }) none "tutor-1").2.2.2.2.1 rfl⟩

/-! ## Agent behavior (src/agents/base_implementations.py)

`AgentResponse` is modelled with the fields the claims read (`message`,
`agent_type`, `points_awarded`); `challenge`, `hint`, `joke`, `next_agent`,
`metadata` and `timestamp` are omitted. `random.choice` over a fixed list is
modelled by an index derived from the explicit `rand` parameter. -/

structure AgentResponse where
  message : String
  agent_type : AgentType
  points_awarded : ℤ
deriving DecidableEq, Repr

/-- The five fixed Socratic questions of
`SocraticTutorAgent._generate_socratic_question`. -/
def socraticQuestions : List String :=
  ["Why do you think that is the case?",
   "Can you provide an example to support your answer?",
   "What would happen if we approached this differently?",
   "How does this relate to what we learned earlier?",
   "What assumptions are you making here?"]

/-- `VirtualPeerAgent._generate_peer_error_response` fixed lines. -/
def peerErrorResponses : List String :=
  ["I think we should approach this by ignoring the context entirely.",
   "That\x27s interesting, but I believe the opposite is actually true.",
   "I\x27m pretty sure that contradicts what we learned earlier."]

/-- `VirtualPeerAgent._generate_peer_agreement_response` fixed lines. -/
def peerAgreementResponses : List String :=
  ["That\x27s a great point! I hadn\x27t thought about it that way.",
   "I completely agree with your reasoning.",
   "You\x27re building on that concept really well!"]

/-- `ProvocateurAgent._generate_challenge_prompt` fixed lines. -/
def challengePrompts : List String :=
  ["Ready for a real-world scenario? Here\x27s your challenge:",
   "Let\x27s put your knowledge to the test with this scenario:",
   "I\x27ve got an interesting challenge for you:"]

/-- `TeachableAgent._generate_learning_response`. -/
def teachableLearningResponse (understanding_gain : ℕ) : String :=
  if understanding_gain > 8 then
    "Wow! That explanation really helped me understand this concept better!"
  else if understanding_gain > 5 then
    "Thanks for explaining that. I\x27m starting to get it now."
  else
    "I\x27m learning, but could you provide more details?"

/-- `TeachableAgent._evaluate_teaching`: length thresholds on the input text. -/
def evaluateTeaching (user_input : String) : ℕ :=
  if user_input.length > 100 then 10
  else if user_input.length > 50 then 5
  else 2

/-- `process_input` of the four agent implementations, dispatched on the agent
type tag. `rand` selects among the fixed response lines; for the peer agent,
`rand % 10 < 3` plays the role of `random.random() < 0.3`. Returns the updated
agent and its response. -/
def Agent.process_input (a : Agent) (user_input : String) (rand : ℕ) :
    Agent × AgentResponse :=
  match a.agent_type with
  | AgentType.tutor =>
      let message := socraticQuestions.getD (rand % socraticQuestions.length) ""
      ({ a with questions_asked := a.questions_asked + 1 },
       { message := message, agent_type := a.agent_type, points_awarded := 5 })
  | AgentType.peer =>
      let should_error := rand % 10 < 3
      let message :=
        if should_error then
          peerErrorResponses.getD ((rand / 10) % peerErrorResponses.length) ""
        else
          peerAgreementResponses.getD ((rand / 10) % peerAgreementResponses.length) ""
      (a, { message := message, agent_type := a.agent_type,
            points_awarded := if should_error then 10 else 5 })
  | AgentType.provocateur =>
      let message := challengePrompts.getD (rand % challengePrompts.length) ""
      ({ a with challenges_created := a.challenges_created + 1 },
       { message := message, agent_type := a.agent_type, points_awarded := 0 })
  | AgentType.teachable =>
      let understanding_gain := evaluateTeaching user_input
      ({ a with understanding_level := min 100 (a.understanding_level + understanding_gain) },
       { message := teachableLearningResponse understanding_gain,
         agent_type := a.agent_type, points_awarded := 15 + (understanding_gain : ℤ) })

/-! ## Orchestrator (src/services/orchestrator_service.py) -/

/-- State of `OrchestratorService` (the stored user profile is not read by any
claim and is omitted). -/
structure OrchestratorService where
  agents : List (AgentType × Agent)
  conversation_count : ℕ
  last_agent_type : Option AgentType

/-- `OrchestratorService.__init__` followed by `_initialize_agents`: one agent
per registered type of the given registry, skipping types whose construction
fails. -/
def OrchestratorService.init (registry : AgentRegistry) : OrchestratorService :=
  { agents := registry.get_all_registered_types.foldl
      (fun m t =>
        match registry.create_agent t none with
        | Except.ok pair => alistSet m t pair.2
        | Except.error _ => m) [],
    conversation_count := 0,
    last_agent_type := none }

/-- `OrchestratorService.process_user_input`: increments the turn counter,
selects the agent, fails with `ValueError` (modelled as an error value) when
the selected type has no live instance, and otherwise delegates. -/
def OrchestratorService.process_user_input (o : OrchestratorService)
    (user_input : String) (rand : ℕ) :
    Except String (OrchestratorService × AgentResponse) :=
  let conversation_count := o.conversation_count + 1
  let agent_type := decide_next_agent conversation_count user_input
  match o.agents.lookup agent_type with
  | none => Except.error ("Agent " ++ agent_type.value ++ " not found")
  | some agent =>
      let processed := agent.process_input user_input rand
      Except.ok
        ({ agents := alistSet o.agents agent_type processed.1,
           conversation_count := conversation_count,
           last_agent_type := some agent_type }, processed.2)

/-! ## The /message route handler (src/api/routes/chat_routes.py) -/

/-- The user profile fields the handler reads. -/
structure UserProfile where
  name : String
  subject : String
deriving DecidableEq, Repr

/-- A stored session: id and profile. -/
structure UserSession where
  session_id : String
  user_profile : UserProfile
deriving DecidableEq, Repr

/-- The `AgentRegistry()` constructed inside `get_services`: a fresh, empty
registry. The module-level `register_default_agents()` call populates the
separate global registry returned by `get_registry()`, which `get_services`
never uses. -/
def get_services_registry : AgentRegistry :=
  AgentRegistry.init

/-- The session map of the `SessionService()` constructed inside
`get_services`: a fresh service, so the map is empty. -/
def get_services_sessions : List (String × UserSession) :=
  []

/-- The body of the `/message` handler `send_message`, parametrized by the
session map of the per-request `SessionService` (which `get_services` makes
empty — see `get_services_sessions`), the request fields, and the `rand`
parameter standing for the agents\x27 random draws. The fresh per-request
`PointsService`, `HistoryService` and `AgentRegistry` are built inside, as in
`get_services`; HTTP framing and the response JSON shape are not modelled:
the result is the agent response together with the final points and history
states, or the message of the exception that aborted the handler. -/
def send_message (sessions : List (String × UserSession)) (session_id : String)
    (message : String) (use_hint_flag : Bool) (rand : ℕ) :
    Except String (AgentResponse × PointsService × HistoryService) :=
  let points_service := PointsService.init
  let history_service := HistoryService.init
  let agent_registry := get_services_registry
  match sessions.lookup session_id with
  | none => Except.error ("Session \x27" ++ session_id ++ "\x27 not found")
  | some session =>
    let orchestrator := OrchestratorService.init agent_registry
    match orchestrator.process_user_input message rand with
    | Except.error e => Except.error e
    | Except.ok result =>
      let agent_response := result.2
      let awarded :=
        if agent_response.points_awarded > 0 then
          points_service.award_points "collaboration" agent_response.points_awarded
        else (points_service, 0)
      let after_hint := if use_hint_flag then (awarded.1.use_hint).1 else awarded.1
      let history2 := history_service.add_interaction agent_response.agent_type.value
        session.user_profile.subject message agent_response.message awarded.2 none
      Except.ok (agent_response, after_hint, history2)

/-- A concrete stored session for evaluating the handler. -/
def adaSession : UserSession :=
  { session_id := "sid-ada", user_profile := { name := "Ada", subject := "Algebra" } }

/-! ## Claim C9 -/

/-- C9 is violated by the code: `get_services` builds a fresh empty
`SessionService`, so the session lookup fails on every request; and even with
the session present, the orchestrator is built from the fresh empty
`AgentRegistry()` of `get_services` (the defaults were registered on the
distinct global registry), so its agent map is empty and processing the
message "Why does this work?" fails with `ValueError` instead of a Tutor
response with points. -/
theorem send_message_why_fails :
    send_message get_services_sessions "sid-ada" "Why does this work?" false 0
      = Except.error "Session \x27sid-ada\x27 not found"
    ∧ send_message [("sid-ada", adaSession)] "sid-ada" "Why does this work?" false 0
      = Except.error "Agent tutor not found"
    ∧ decide_next_agent 1 "Why does this work?" = AgentType.tutor
    ∧ (OrchestratorService.init get_services_registry).agents = [] :=
  ⟨rfl, rfl, rfl, rfl⟩

/-! ## Claim C10 -/

/-- Formal statement of claim C10: the orchestrator the handler builds is
fresh (turn counter 0), so selection happens at counter 1; a keyword-free
message therefore selects the Provocateur, on every request alike (the
handler carries no state from one request to the next, so the round robin
never advances). -/
def FreshRouteClaim (sessions : List (String × UserSession)) (sid : String)
    (input : String) (rand : ℕ) : Prop :=
  (OrchestratorService.init get_services_registry).conversation_count = 0
  ∧ decide_next_agent
      ((OrchestratorService.init get_services_registry).conversation_count + 1) input
      = AgentType.provocateur
  ∧ ((sessions.lookup sid).isSome = true →
      send_message sessions sid input false rand
        = Except.error "Agent provocateur not found")

/-- C10: every `/message` request builds fresh services, so the orchestrator
counter is 1 at selection time and every keyword-free message selects the
Provocateur; no state survives between requests, so the round robin never
advances. (The selection then fails to find a live Provocateur instance —
see the C9 theorem — which is what the handler result records.) -/
theorem send_message_fresh_selection (sessions : List (String × UserSession))
    (sid : String) (input : String) (rand : ℕ) (hk : KeywordFreeInput input) :
    FreshRouteClaim sessions sid input rand := by
  have hsel : decide_next_agent
      ((OrchestratorService.init get_services_registry).conversation_count + 1) input
      = AgentType.provocateur := by
    rw [decide_next_agent_keywordFree input _ hk]
    decide
  refine ⟨rfl, hsel, ?_⟩
  intro hsome
  obtain ⟨sess, hsess⟩ := Option.isSome_iff_exists.mp hsome
  have hproc : (OrchestratorService.init get_services_registry).process_user_input
      input rand = Except.error "Agent provocateur not found" := by
    unfold OrchestratorService.process_user_input
    dsimp only
    rw [hsel]
    rfl
  unfold send_message
  rw [hsess]
  dsimp only
  rw [show get_services_registry = AgentRegistry.init from rfl] at hproc ⊢
  rw [hproc]

theorem send_message_fresh_selection_witness :
    KeywordFreeInput "I am stuck, any ideas?"
    ∧ FreshRouteClaim [("sid-ada", adaSession)] "sid-ada" "I am stuck, any ideas?" 0 :=
  ⟨by decide,
   send_message_fresh_selection [("sid-ada", adaSession)] "sid-ada"
     "I am stuck, any ideas?" 0 (by decide)⟩
